import Mathlib

/-!
Shallow embedding of `lit_lib` (file `src/lit_lib/__init__.py`), a
phrase-lookup layer: a `Lit` registry maps language names to per-language
phrase tables (`LitLanguage`), with a configurable miss policy
(`NotFoundInstruction`): remote translation, transliteration, or strict
failure.

Modelling decisions, mirroring Python semantics:
  * Python dicts of phrases are association lists (`Dict`) living on an
    explicit heap (`Heap`, a list of dicts indexed by address), because the
    code shares dict *objects* between the registry's `config` and the
    `LitLanguage` wrappers it returns, and mutates them in place.
  * `LitLanguage.phrases` is a `PhrasesVal`: either a reference into the
    heap (`.ref addr`, the dict object stored in the config) or
    `.emptyList`, the literal Python `[]` that `Lit.__getitem__` passes as
    the default for a language absent from the config.  Membership tests
    (`in`) work on a list, but `.get` does not exist on lists, so
    `phGet .emptyList` raises `AttributeError`, exactly as CPython does.
  * Python exceptions are the `PyErr` sum; fallible operations return
    `Except PyErr _`.
  * The external translation provider (`GoogleTranslator`) is an opaque
    parameter `provider : Provider`; `Lit._translate` calls it with the
    lowercased language name, as the source does.
  * Object identity of the `LitLanguage` wrappers matters to the spec
    ("same table instance"), so each constructor call is modelled as an
    allocation: `Lit.__getitem__` threads an allocation counter (`State.nextId`)
    and stamps the fresh wrapper with a unique `id`.
  * `resolve` (Python `LitLanguage.__getitem__`) also returns how many
    times the provider and the transliteration helper were invoked, so
    call-count clauses of the spec are statable.
-/

/-- A Python dict of phrases: association list, insertion-ordered. -/
abbrev Dict := List (String × String)

/-- Lookup in a phrase dict (Python `d.get(key)` / `d[key]`). -/
def dictLookup : Dict → String → Option String
  | [], _ => none
  | (k, v) :: rest, key => if k == key then some v else dictLookup rest key

/-- Python `key in d`. -/
def dictMem (d : Dict) (key : String) : Bool :=
  (dictLookup d key).isSome

/-- Python `d[key] = v`: overwrite in place if present, else append
(insertion order preserved). -/
def dictInsert (d : Dict) (key v : String) : Dict :=
  if dictMem d key then
    d.map (fun p => if p.1 == key then (key, v) else p)
  else
    d ++ [(key, v)]

/-- The heap of live dict objects; an address is an index. -/
abbrev Heap := List Dict

/-- Dereference a dict address (total: out-of-range reads as `[]`;
theorems add validity hypotheses where the address matters). -/
def heapDict (h : Heap) (a : Nat) : Dict :=
  (List.get? h a).getD []

/-- Overwrite the dict object at address `a`. -/
def heapSet (h : Heap) (a : Nat) (d : Dict) : Heap :=
  List.set h a d

/-- Errors the embedded code can raise. -/
inductive PyErr
  | keyError (msg : String)
  | attributeError (attr : String)
  | providerError (cause : String)
deriving DecidableEq, Repr

deriving instance DecidableEq for Except

/-- The external translation provider: `(targetLanguage, text) ↦ translation`,
or a provider failure. `GoogleTranslator` in the source. -/
def Provider := String → String → Except String String

/-- `NotFoundInstruction` enum from the source. -/
inductive NotFoundInstruction
  | TRANSLATE
  | TRANSLITERATE
  | NONE
deriving DecidableEq, Repr

/-- The `phrases` attribute of a `LitLanguage`: either a shared dict object
(heap reference), or the Python list `[]` that `Lit.__getitem__` passes
when the language is absent from the config. -/
inductive PhrasesVal
  | ref (addr : Nat)
  | emptyList
deriving DecidableEq, Repr

/-- Python `key in self.phrases` (membership works on both dicts and lists;
`key in []` is `False`). -/
def phMem (p : PhrasesVal) (h : Heap) (key : String) : Bool :=
  match p with
  | .ref a => dictMem (heapDict h a) key
  | .emptyList => false

/-- Python `self.phrases.get(key)`: on a dict, the optional value; on the
list `[]`, `AttributeError` (`list` has no attribute `get`). -/
def phGet (p : PhrasesVal) (h : Heap) (key : String) : Except PyErr (Option String) :=
  match p with
  | .ref a => .ok (dictLookup (heapDict h a) key)
  | .emptyList => .error (.attributeError "get")

/-- `LitLanguage`: one per-language phrase table.  `id` models Python
object identity (each constructor call allocates a fresh object). -/
structure LitLanguage where
  id : Nat
  name : String
  phrases : PhrasesVal
  not_found_instructions : NotFoundInstruction
deriving DecidableEq, Repr

/-- `LitLanguage._translit` from the source: the body is `return key`
(the key is returned unchanged; the module-level `ru_to_en` table is not
consulted). -/
def LitLanguage.translit (key : String) : String :=
  key

/-- `Lit._translate` from the source: builds a translator with
`target=lang.lower()` and calls it on the phrase. -/
def Lit.translate (provider : Provider) (lang : String) (phrase : String) :
    Except String String :=
  provider lang.toLower phrase

/-- Outcome of `LitLanguage.__getitem__`: the returned value or raised
error, the heap afterwards, and how many provider / transliteration calls
were made. -/
structure ResolveOut where
  result : Except PyErr (Option String)
  heap : Heap
  providerCalls : Nat
  translitCalls : Nat
deriving DecidableEq, Repr

/-- `LitLanguage.__getitem__` from the source, line by line:

    if key not in self.phrases and self.not_found_instructions == NONE:
        raise KeyError(f"Phrase {key} not found in language {self.name}")
    result = self.phrases.get(key)
    if self.not_found_instructions == TRANSLITERATE and result is None:
        result = self._translit(key)
    if self.not_found_instructions == TRANSLATE and result is None:
        result = Lit._translate(self.name, key)
        self.phrases[key] = result
    return result
-/
def LitLanguage.resolve (lang : LitLanguage) (key : String) (h : Heap)
    (provider : Provider) : ResolveOut :=
  if ¬ phMem lang.phrases h key ∧ lang.not_found_instructions = .NONE then
    { result := .error (.keyError
        ("Phrase " ++ key ++ " not found in language " ++ lang.name)),
      heap := h, providerCalls := 0, translitCalls := 0 }
  else
    match phGet lang.phrases h key with
    | .error e => { result := .error e, heap := h, providerCalls := 0, translitCalls := 0 }
    | .ok result₀ =>
      let (result₁, tc) :=
        if lang.not_found_instructions = .TRANSLITERATE ∧ result₀ = none then
          (some (LitLanguage.translit key), 1)
        else (result₀, 0)
      if lang.not_found_instructions = .TRANSLATE ∧ result₁ = none then
        match Lit.translate provider lang.name key with
        | .error cause =>
          { result := .error (.providerError cause), heap := h,
            providerCalls := 1, translitCalls := tc }
        | .ok v =>
          match lang.phrases with
          | .ref a =>
            { result := .ok (some v),
              heap := heapSet h a (dictInsert (heapDict h a) key v),
              providerCalls := 1, translitCalls := tc }
          | .emptyList =>
            -- dead branch: `phGet .emptyList` already raised above
            { result := .ok (some v), heap := h,
              providerCalls := 1, translitCalls := tc }
      else
        { result := .ok result₁, heap := h, providerCalls := 0, translitCalls := tc }

/-- `LitLanguage.__contains__` from the source:

    return key in self.phrases or self.auto_translit

`or` short-circuits, so a present key yields `True`; for an absent key
CPython evaluates `self.auto_translit`, an attribute `__init__` never
assigns (it sets `not_found_instructions`), which raises
`AttributeError`. -/
def LitLanguage.contains (lang : LitLanguage) (h : Heap) (key : String) :
    Except PyErr Bool :=
  if phMem lang.phrases h key then .ok true
  else .error (.attributeError "auto_translit")

/-- The `Lit` registry: `config` is the language → phrases-dict-object
mapping (addresses into the heap), plus the default miss policy. -/
structure Lit where
  config : List (String × Nat)
  not_found_instructions : NotFoundInstruction
deriving Repr

/-- Mutable ambient state threaded through operations: the dict heap and
the allocation counter for object identities. -/
structure State where
  heap : Heap
  nextId : Nat
deriving DecidableEq, Repr

/-- `Lit.__getitem__` from the source:

    if key not in self.config and self.not_found_instructions == NONE:
        raise KeyError(f"Language {key} not found in config file")
    return LitLanguage(key, self.config.get(key, []),
                       not_found_instructions=self.not_found_instructions)

A fresh `LitLanguage` object is constructed on *every* call (there is no
per-name cache of wrappers); for a config-present name its `phrases` is
the very dict object stored in the config, for an absent name it is the
literal `[]` default. -/
def Lit.getLanguage (lit : Lit) (key : String) (st : State) :
    Except PyErr (LitLanguage × State) :=
  if (lit.config.lookup key).isNone ∧ lit.not_found_instructions = .NONE then
    .error (.keyError ("Language " ++ key ++ " not found in config file"))
  else
    .ok ({ id := st.nextId, name := key,
           phrases := match lit.config.lookup key with
                      | some a => .ref a
                      | none => .emptyList,
           not_found_instructions := lit.not_found_instructions },
         { st with nextId := st.nextId + 1 })

/-- Outcome of `Lit.get`, analogous to `ResolveOut` but over `State`. -/
structure GetOut where
  result : Except PyErr (Option String)
  state : State
  providerCalls : Nat
  translitCalls : Nat
deriving Repr

/-- `Lit.get` from the source: `return self[language][key]`. -/
def Lit.get (lit : Lit) (key : String) (language : String) (st : State)
    (provider : Provider) : GetOut :=
  match lit.getLanguage language st with
  | .error e => { result := .error e, state := st, providerCalls := 0, translitCalls := 0 }
  | .ok (lang, st') =>
    let out := lang.resolve key st'.heap provider
    { result := out.result, state := { st' with heap := out.heap },
      providerCalls := out.providerCalls, translitCalls := out.translitCalls }

/-- The module-level `ru_to_en` substitution table from the source
(Cyrillic letter → Latin digraph), verbatim. -/
def ru_to_en : List (Char × String) :=
  [('а', "a"), ('б', "b"), ('в', "v"), ('г', "g"), ('д', "d"), ('е', "e"),
   ('ё', "e"), ('ж', "zh"), ('з', "z"), ('и', "i"), ('й', "j"), ('к', "k"),
   ('л', "l"), ('м', "m"), ('н', "n"), ('о', "o"), ('п', "p"), ('р', "r"),
   ('с', "s"), ('т', "t"), ('у', "u"), ('ф', "f"), ('х', "x"), ('ц', "c"),
   ('ч', "ch"), ('ш', "sh"), ('щ', "ssh"), ('ъ', ""), ('ы', "y`"),
   ('ь', ""), ('э', "e`"), ('ю', "yy"), ('я', "ya")]

/-- Modelled from the spec: the transliteration algorithm the spec
describes for the Transliterate resolver — "table-driven character
substitution ... applied left-to-right over Unicode code points;
characters absent from the substitution table pass through unchanged" —
instantiated at the source's `ru_to_en` table.  The source's
`LitLanguage._translit` does not implement this (its body is
`return key`); this definition exists to state the divergence. -/
def specTransliterate (key : String) : String :=
  key.data.foldl
    (fun acc c => acc ++ ((ru_to_en.lookup c).getD (String.singleton c))) ""

/-- Modelled from the spec: the Registry of §4.3 with `compileAll`.  The
methods `compile_all` and `langs_from_compiled_dict` are imported and
called by `src/test.py` but their code is not under `src/` (the spec notes
the repo has a second near-duplicate module); this model follows the
spec's words: `tables` holds every table ever constructed through `get`,
in construction order, at most one per name; `get` returns the existing
table or constructs one seeded from the seed config (empty map if the
language is absent) and records it; `compileAll` returns the
`{name, phrases}` records of all tables in construction order, as
point-in-time copies. -/
structure SpecRegistry where
  seed : List (String × Dict)
  tables : List (String × Dict)
  defaultPolicy : NotFoundInstruction
deriving Repr

/-- A snapshot: ordered `{name, phrases}` records. -/
abbrev Snapshot := List (String × Dict)

/-- Modelled from the spec: `Registry.get` — fetch the existing table for
the name, or construct one from the seed (empty map if absent) and record
it at the end of the construction-order list. -/
def SpecRegistry.get (r : SpecRegistry) (name : String) :
    Dict × SpecRegistry :=
  match r.tables.lookup name with
  | some d => (d, r)
  | none =>
    let d := (r.seed.lookup name).getD []
    (d, { r with tables := r.tables ++ [(name, d)] })

/-- Replace the phrases of the (first) table named `name`. -/
def SpecRegistry.setTable (tables : List (String × Dict)) (name : String)
    (d : Dict) : List (String × Dict) :=
  match tables with
  | [] => []
  | (n, d₀) :: rest =>
    if n == name then (n, d) :: rest
    else (n, d₀) :: SpecRegistry.setTable rest name d

/-- Modelled from the spec: `Registry.lookup(key, languageName)` =
`get(languageName).resolve(key)`, for a RemoteTranslate-policy registry:
a hit returns the stored value; a miss calls the provider, memoizes the
result into the table (the registry keeps the updated table), and returns
it; a provider failure propagates and leaves the registry unchanged. -/
def SpecRegistry.lookup (r : SpecRegistry) (key name : String)
    (provider : Provider) : Except String String × SpecRegistry :=
  let (d, r₁) := r.get name
  match dictLookup d key with
  | some v => (.ok v, r₁)
  | none =>
    match provider name.toLower key with
    | .error e => (.error e, r₁)
    | .ok v =>
      (.ok v, { r₁ with tables := SpecRegistry.setTable r₁.tables name (dictInsert d key v) })

/-- Modelled from the spec: `compileAll()` — the exported snapshot of
every table ever constructed through `get`, in the order first
constructed; each record is a point-in-time copy. -/
def SpecRegistry.compileAll (r : SpecRegistry) : Snapshot :=
  r.tables.map (fun p => (p.1, p.2))

example :
    (LitLanguage.resolve
      { id := 0, name := "DE", phrases := .ref 0,
        not_found_instructions := .NONE }
      "Goodbye" [[("Hi", "Hallo")]] (fun _ _ => .ok "x")).result
    = .error (.keyError "Phrase Goodbye not found in language DE") := by
  decide

example : specTransliterate "привет" = "privet" := by decide

/-! ## Helper lemmas (shared infrastructure, not claim theorems) -/

lemma dictLookup_append_right {d : Dict} {key : String}
    (h : dictLookup d key = none) (d' : Dict) :
    dictLookup (d ++ d') key = dictLookup d' key := by
  induction d with
  | nil => rfl
  | cons p rest ih =>
    obtain ⟨k, v⟩ := p
    by_cases hk : k == key
    · simp [dictLookup, hk] at h
    · simp only [dictLookup, hk, List.cons_append, if_false, Bool.false_eq_true] at h ⊢
      exact ih h

lemma dictInsert_of_absent {d : Dict} {key : String} (v : String)
    (h : dictLookup d key = none) :
    dictInsert d key v = d ++ [(key, v)] := by
  simp [dictInsert, dictMem, h]

lemma dictLookup_dictInsert_self {d : Dict} {key : String} (v : String)
    (h : dictLookup d key = none) :
    dictLookup (dictInsert d key v) key = some v := by
  rw [dictInsert_of_absent v h, dictLookup_append_right h]
  simp [dictLookup]

lemma heapDict_heapSet_self {h : Heap} {a : Nat} (d : Dict)
    (ha : a < h.length) :
    heapDict (heapSet h a d) a = d := by
  induction h generalizing a with
  | nil => simp at ha
  | cons d₀ rest ih =>
    cases a with
    | zero => rfl
    | succ a =>
      simp only [List.length_cons, Nat.succ_lt_succ_iff] at ha
      exact ih ha

/-- A hit: the key is stored in the table's dict; the stored value is
returned, nothing changes, no collaborator is called (any policy). -/
lemma resolve_hit (lang : LitLanguage) (key : String) (h : Heap)
    (provider : Provider) (a : Nat) (v : String)
    (hph : lang.phrases = .ref a)
    (hv : dictLookup (heapDict h a) key = some v) :
    lang.resolve key h provider =
      { result := .ok (some v), heap := h,
        providerCalls := 0, translitCalls := 0 } := by
  have hmem : phMem (PhrasesVal.ref a) h key = true := by
    simp [phMem, dictMem, hv]
  simp [LitLanguage.resolve, hmem, hph, phGet, hv]

/-- A miss under `TRANSLATE` with a succeeding provider: one provider
call, the result memoized into the shared dict at `a`, and returned. -/
lemma resolve_miss_translate (lang : LitLanguage) (key : String) (h : Heap)
    (provider : Provider) (a : Nat) (v : String)
    (hpol : lang.not_found_instructions = .TRANSLATE)
    (hph : lang.phrases = .ref a)
    (habs : dictLookup (heapDict h a) key = none)
    (hprov : provider lang.name.toLower key = .ok v) :
    lang.resolve key h provider =
      { result := .ok (some v),
        heap := heapSet h a (dictInsert (heapDict h a) key v),
        providerCalls := 1, translitCalls := 0 } := by
  have hmem : phMem (PhrasesVal.ref a) h key = false := by
    simp [phMem, dictMem, habs]
  simp [LitLanguage.resolve, hmem, hpol, hph, phGet, habs, Lit.translate, hprov]

/-- A miss under `TRANSLATE` with a failing provider: the raw provider
error propagates, the heap is untouched (nothing memoized). -/
lemma resolve_miss_translate_err (lang : LitLanguage) (key : String)
    (h : Heap) (provider : Provider) (a : Nat) (cause : String)
    (hpol : lang.not_found_instructions = .TRANSLATE)
    (hph : lang.phrases = .ref a)
    (habs : dictLookup (heapDict h a) key = none)
    (hprov : provider lang.name.toLower key = .error cause) :
    lang.resolve key h provider =
      { result := .error (.providerError cause), heap := h,
        providerCalls := 1, translitCalls := 0 } := by
  have hmem : phMem (PhrasesVal.ref a) h key = false := by
    simp [phMem, dictMem, habs]
  simp [LitLanguage.resolve, hmem, hpol, hph, phGet, habs, Lit.translate, hprov]

/-- A miss under the strict policy `NONE`: `KeyError` with the key and
language name in the message, heap untouched, no collaborator calls. -/
lemma resolve_strict_miss (lang : LitLanguage) (key : String) (h : Heap)
    (provider : Provider)
    (hpol : lang.not_found_instructions = .NONE)
    (habs : phMem lang.phrases h key = false) :
    lang.resolve key h provider =
      { result := .error (.keyError
          ("Phrase " ++ key ++ " not found in language " ++ lang.name)),
        heap := h, providerCalls := 0, translitCalls := 0 } := by
  simp [LitLanguage.resolve, habs, hpol]

/-- `Lit.__getitem__` on a name present in the config: a freshly
allocated wrapper whose `phrases` is the config's dict object at `a`. -/
lemma getLanguage_present (lit : Lit) (name : String) (st : State) (a : Nat)
    (hcfg : lit.config.lookup name = some a) :
    lit.getLanguage name st =
      .ok ({ id := st.nextId, name := name, phrases := .ref a,
             not_found_instructions := lit.not_found_instructions },
           { st with nextId := st.nextId + 1 }) := by
  simp [Lit.getLanguage, hcfg]

/-- Looking up a key that the first block of an association list does not
contain skips that block. -/
lemma lookup_append_of_none {β : Type} (pre : List (String × β)) (L : String)
    (rest : List (String × β)) (h : pre.lookup L = none) :
    (pre ++ rest).lookup L = rest.lookup L := by
  induction pre with
  | nil => rfl
  | cons p t ih =>
    obtain ⟨n, d⟩ := p
    by_cases hn : (L == n) = true
    · simp [List.lookup, hn] at h
    · rw [Bool.not_eq_true] at hn
      simp only [List.lookup, hn, List.cons_append] at h ⊢
      exact ih h

/-- `setTable` on a list whose first `L`-named entry sits after `pre`
replaces exactly that entry. -/
lemma setTable_of_first (pre : List (String × Dict)) (L : String)
    (d d' : Dict) (post : List (String × Dict))
    (hpre : pre.lookup L = none) :
    SpecRegistry.setTable (pre ++ (L, d) :: post) L d' =
      pre ++ (L, d') :: post := by
  induction pre with
  | nil => simp [SpecRegistry.setTable]
  | cons p t ih =>
    obtain ⟨n, d₀⟩ := p
    by_cases hn : (L == n) = true
    · simp [List.lookup, hn] at hpre
    · rw [Bool.not_eq_true] at hn
      have hn' : (n == L) = false := by
        rw [beq_eq_false_iff_ne] at hn ⊢
        exact fun e => hn e.symm
      simp only [List.lookup, hn] at hpre
      simp [SpecRegistry.setTable, hn', ih hpre]

/-- Under the strict policy `NONE`, `resolve` never mutates the heap and
never calls the provider, hit or miss. -/
lemma resolve_strict_pure (lang : LitLanguage) (key : String) (h : Heap)
    (provider : Provider)
    (hpol : lang.not_found_instructions = .NONE) :
    (lang.resolve key h provider).heap = h ∧
    (lang.resolve key h provider).providerCalls = 0 := by
  cases hm : phMem lang.phrases h key with
  | false => simp [LitLanguage.resolve, hm, hpol]
  | true =>
    cases hp : lang.phrases with
    | ref a =>
      rw [hp] at hm
      simp [LitLanguage.resolve, hm, hpol, hp, phGet]
    | emptyList =>
      rw [hp] at hm
      simp [phMem] at hm

/-! ## Claim theorems -/

/-- C5: under the Strict (`NONE`) policy, resolving an absent key fails
with the key-error carrying the key and the language name, the phrases
heap is unchanged by the failed call, and no resolve under the Strict
policy (hit or miss) ever mutates the heap or calls the provider. -/
theorem strict_miss_keyerror_no_mutation (lang : LitLanguage) (key : String)
    (h : Heap) (provider : Provider)
    (hpol : lang.not_found_instructions = .NONE)
    (habs : phMem lang.phrases h key = false) :
    lang.resolve key h provider =
      { result := .error (.keyError
          ("Phrase " ++ key ++ " not found in language " ++ lang.name)),
        heap := h, providerCalls := 0, translitCalls := 0 } ∧
    ∀ key', (lang.resolve key' h provider).heap = h ∧
            (lang.resolve key' h provider).providerCalls = 0 :=
  ⟨resolve_strict_miss lang key h provider hpol habs,
   fun key' => resolve_strict_pure lang key' h provider hpol⟩

/-- Witness for C5 at the spec's own scenario: seed `{"DE": {"Hi
everyone": "Hallo zusammen"}}`, Strict policy, key `"Goodbye"`. -/
theorem strict_miss_keyerror_no_mutation_witness :
    LitLanguage.resolve
        { id := 0, name := "DE", phrases := .ref 0,
          not_found_instructions := .NONE }
        "Goodbye" [[("Hi everyone", "Hallo zusammen")]] (fun _ _ => .ok "x") =
      { result := .error (.keyError
          ("Phrase " ++ "Goodbye" ++ " not found in language " ++ "DE")),
        heap := [[("Hi everyone", "Hallo zusammen")]],
        providerCalls := 0, translitCalls := 0 } :=
  (strict_miss_keyerror_no_mutation
    { id := 0, name := "DE", phrases := .ref 0,
      not_found_instructions := .NONE }
    "Goodbye" [[("Hi everyone", "Hallo zusammen")]] (fun _ _ => .ok "x")
    rfl (by decide)).1

/-- C7: a key seeded in the config for a language is returned as stored by
`Lit.get` (`self[language][key]`), with zero provider calls, zero
transliteration calls, and an unchanged heap (only the wrapper-allocation
counter advances); this holds whatever the miss policy is, and in
particular when the stored value is the empty string. -/
theorem seeded_lookup_zero_calls (lit : Lit) (key language v : String)
    (st : State) (provider : Provider) (a : Nat)
    (hcfg : lit.config.lookup language = some a)
    (hkey : dictLookup (heapDict st.heap a) key = some v) :
    lit.get key language st provider =
      { result := .ok (some v),
        state := { st with nextId := st.nextId + 1 },
        providerCalls := 0, translitCalls := 0 } := by
  have h1 := getLanguage_present lit language st a hcfg
  have h2 := resolve_hit
    { id := st.nextId, name := language, phrases := .ref a,
      not_found_instructions := lit.not_found_instructions }
    key st.heap provider a v rfl hkey
  simp [Lit.get, h1, h2]

/-- Witness for C7 with an empty-string seeded value: the empty string is
returned as a present value, not treated as a miss. -/
theorem seeded_lookup_zero_calls_witness :
    Lit.get { config := [("DE", 0)], not_found_instructions := .TRANSLATE }
        "Hi everyone" "DE" { heap := [[("Hi everyone", "")]], nextId := 0 }
        (fun _ _ => .ok "never") =
      { result := .ok (some ""),
        state := { heap := [[("Hi everyone", "")]], nextId := 1 },
        providerCalls := 0, translitCalls := 0 } :=
  seeded_lookup_zero_calls
    { config := [("DE", 0)], not_found_instructions := .TRANSLATE }
    "Hi everyone" "DE" "" { heap := [[("Hi everyone", "")]], nextId := 0 }
    (fun _ _ => .ok "never") 0 (by decide) (by decide)

/-- C2: under the `TRANSLATE` policy, the first resolve of an absent key
makes exactly one provider call, stores the provider's result under the
key in the shared dict, and returns it; a subsequent resolve of the same
key on the resulting heap returns the stored value with zero provider
calls and no further mutation. -/
theorem remote_translate_memoizes_once (lang : LitLanguage) (key v : String)
    (h : Heap) (provider : Provider) (a : Nat)
    (hpol : lang.not_found_instructions = .TRANSLATE)
    (hph : lang.phrases = .ref a)
    (ha : a < h.length)
    (habs : dictLookup (heapDict h a) key = none)
    (hprov : provider lang.name.toLower key = .ok v) :
    lang.resolve key h provider =
      { result := .ok (some v),
        heap := heapSet h a (dictInsert (heapDict h a) key v),
        providerCalls := 1, translitCalls := 0 } ∧
    lang.resolve key (heapSet h a (dictInsert (heapDict h a) key v)) provider =
      { result := .ok (some v),
        heap := heapSet h a (dictInsert (heapDict h a) key v),
        providerCalls := 0, translitCalls := 0 } := by
  refine ⟨resolve_miss_translate lang key h provider a v hpol hph habs hprov, ?_⟩
  apply resolve_hit lang key _ provider a v hph
  rw [heapDict_heapSet_self _ ha]
  exact dictLookup_dictInsert_self v habs

/-- Witness for C2: a fresh `"DE"` table memoizing `"Hi"` ↦ `"Hallo"`. -/
theorem remote_translate_memoizes_once_witness :
    LitLanguage.resolve
        { id := 0, name := "DE", phrases := .ref 0,
          not_found_instructions := .TRANSLATE }
        "Hi" [[]] (fun _ _ => .ok "Hallo") =
      { result := .ok (some "Hallo"),
        heap := heapSet [[]] 0 (dictInsert (heapDict [[]] 0) "Hi" "Hallo"),
        providerCalls := 1, translitCalls := 0 } ∧
    LitLanguage.resolve
        { id := 0, name := "DE", phrases := .ref 0,
          not_found_instructions := .TRANSLATE }
        "Hi" (heapSet [[]] 0 (dictInsert (heapDict [[]] 0) "Hi" "Hallo"))
        (fun _ _ => .ok "Hallo") =
      { result := .ok (some "Hallo"),
        heap := heapSet [[]] 0 (dictInsert (heapDict [[]] 0) "Hi" "Hallo"),
        providerCalls := 0, translitCalls := 0 } :=
  remote_translate_memoizes_once
    { id := 0, name := "DE", phrases := .ref 0,
      not_found_instructions := .TRANSLATE }
    "Hi" "Hallo" [[]] (fun _ _ => .ok "Hallo") 0
    rfl rfl (by decide) (by decide) rfl

/-- C6 counterexample: the claim says a failing provider call surfaces as
`TranslationUnavailable(key, languageName, cause)`. In the code the
provider's own error propagates unwrapped: resolving two *different*
absent keys against the same failing provider yields the *same* error
value, which therefore cannot carry the key (and the embedded error type,
taken from the source, has no translation-unavailable wrapper at all). -/
theorem remote_failure_error_carries_no_key_cex :
    (LitLanguage.resolve
        { id := 0, name := "DE", phrases := .ref 0,
          not_found_instructions := .TRANSLATE }
        "alpha" [[]] (fun _ _ => .error "timeout")).result =
      .error (.providerError "timeout") ∧
    (LitLanguage.resolve
        { id := 0, name := "DE", phrases := .ref 0,
          not_found_instructions := .TRANSLATE }
        "beta" [[]] (fun _ _ => .error "timeout")).result =
      .error (.providerError "timeout") ∧
    ("alpha" : String) ≠ "beta" :=
  ⟨by decide, by decide, by decide⟩

/-- C6 amended: when the provider fails on an absent key under
`TRANSLATE`, the provider's error propagates to the caller unwrapped
(carrying only the cause, no key or language name, and no
translation-unavailable wrapper), exactly one provider call is made, and
nothing is written to the phrases dict — the heap after the failed call
equals the heap before (no negative caching). -/
theorem remote_failure_propagates_raw_no_memoize (lang : LitLanguage)
    (key : String) (h : Heap) (provider : Provider) (a : Nat)
    (cause : String)
    (hpol : lang.not_found_instructions = .TRANSLATE)
    (hph : lang.phrases = .ref a)
    (habs : dictLookup (heapDict h a) key = none)
    (hprov : provider lang.name.toLower key = .error cause) :
    lang.resolve key h provider =
      { result := .error (.providerError cause), heap := h,
        providerCalls := 1, translitCalls := 0 } :=
  resolve_miss_translate_err lang key h provider a cause hpol hph habs hprov

/-- Witness for the amended C6: a timed-out provider on a fresh table. -/
theorem remote_failure_propagates_raw_no_memoize_witness :
    LitLanguage.resolve
        { id := 0, name := "DE", phrases := .ref 0,
          not_found_instructions := .TRANSLATE }
        "Hi" [[]] (fun _ _ => .error "timeout") =
      { result := .error (.providerError "timeout"), heap := [[]],
        providerCalls := 1, translitCalls := 0 } :=
  remote_failure_propagates_raw_no_memoize
    { id := 0, name := "DE", phrases := .ref 0,
      not_found_instructions := .TRANSLATE }
    "Hi" [[]] (fun _ _ => .error "timeout") 0 "timeout"
    rfl rfl (by decide) rfl

/-- C3 (code bug): the source's `_translit` body is `return key`, so a
Transliterate-policy resolve of the absent key `"привет"` returns
`"привет"` itself (calling the transliteration helper once, heap
untouched), not the `ru_to_en` substitution `"privet"` that the spec (and
the function's own docstring, and the otherwise-unused module-level
`ru_to_en` table) prescribe; `specTransliterate`, the substitution the
spec describes, does yield `"privet"`. -/
theorem translit_returns_key_unchanged :
    LitLanguage.resolve
        { id := 0, name := "RU", phrases := .ref 0,
          not_found_instructions := .TRANSLITERATE }
        "привет" [[]] (fun _ _ => .ok "unused") =
      { result := .ok (some "привет"), heap := [[]],
        providerCalls := 0, translitCalls := 1 } ∧
    LitLanguage.translit "привет" = "привет" ∧
    specTransliterate "привет" = "privet" ∧
    ("привет" : String) ≠ "privet" :=
  ⟨by decide, rfl, by decide, by decide⟩

/-- C4 (code bug): `__contains__` is `key in self.phrases or
self.auto_translit`, but no attribute `auto_translit` is ever assigned
(`__init__` sets `not_found_instructions`), so membership short-circuits
to `True` for a present key and raises `AttributeError` for an absent
one — it never returns `False`, contradicting its own docstring and the
claim. -/
theorem contains_absent_key_attribute_error :
    LitLanguage.contains
        { id := 0, name := "RU", phrases := .ref 0,
          not_found_instructions := .TRANSLITERATE }
        [[("hi", "there")]] "hi" = .ok true ∧
    LitLanguage.contains
        { id := 0, name := "RU", phrases := .ref 0,
          not_found_instructions := .TRANSLITERATE }
        [[("hi", "there")]] "привет" =
      .error (.attributeError "auto_translit") :=
  ⟨by decide, by decide⟩

/-- C8 (code bug): for a language absent from the config (non-Strict
policy), `Lit.__getitem__` passes the *list* `[]` — the literal default in
`self.config.get(key, [])` — as the wrapper's phrases, not an empty dict;
a subsequent resolve then raises `AttributeError` at
`self.phrases.get(key)` (`list` has no attribute `get`) instead of
dispatching the miss to the resolver. -/
theorem absent_language_list_attribute_error :
    Lit.getLanguage
        { config := [("DE", 0)], not_found_instructions := .TRANSLATE }
        "FR" { heap := [[("Hi everyone", "Hallo zusammen")]], nextId := 0 } =
      .ok ({ id := 0, name := "FR", phrases := .emptyList,
             not_found_instructions := .TRANSLATE },
           { heap := [[("Hi everyone", "Hallo zusammen")]], nextId := 1 }) ∧
    (Lit.get { config := [("DE", 0)], not_found_instructions := .TRANSLATE }
        "hello" "FR"
        { heap := [[("Hi everyone", "Hallo zusammen")]], nextId := 0 }
        (fun _ _ => .ok "bonjour")).result =
      .error (.attributeError "get") :=
  ⟨by decide, by decide⟩

/-- C1 counterexample: two consecutive accesses of the same present
language name return two *distinct* `LitLanguage` objects (allocation ids
0 and 1) — `Lit.__getitem__` constructs a fresh wrapper on every call, so
"at most one table object exists per name" is false. -/
theorem registry_not_same_instance_cex :
    Lit.getLanguage
        { config := [("DE", 0)], not_found_instructions := .TRANSLATE }
        "DE" { heap := [[("Hi everyone", "Hallo zusammen")]], nextId := 0 } =
      .ok ({ id := 0, name := "DE", phrases := .ref 0,
             not_found_instructions := .TRANSLATE },
           { heap := [[("Hi everyone", "Hallo zusammen")]], nextId := 1 }) ∧
    Lit.getLanguage
        { config := [("DE", 0)], not_found_instructions := .TRANSLATE }
        "DE" { heap := [[("Hi everyone", "Hallo zusammen")]], nextId := 1 } =
      .ok ({ id := 1, name := "DE", phrases := .ref 0,
             not_found_instructions := .TRANSLATE },
           { heap := [[("Hi everyone", "Hallo zusammen")]], nextId := 2 }) ∧
    ({ id := 0, name := "DE", phrases := .ref 0,
       not_found_instructions := .TRANSLATE } : LitLanguage) ≠
      { id := 1, name := "DE", phrases := .ref 0,
        not_found_instructions := .TRANSLATE } :=
  ⟨by decide, by decide, by decide⟩

/-- C1 amended: accessing the same (config-present) language name twice
returns two distinct `LitLanguage` objects — the registry is a
fresh-wrapper-per-lookup factory — but both wrappers reference the same
underlying phrases dict object, so a value memoized through the first
wrapper is returned by the second wrapper's resolve with zero further
provider calls. -/
theorem registry_fresh_wrapper_shared_dict (lit : Lit)
    (name key v : String) (st : State) (a : Nat) (provider : Provider)
    (hcfg : lit.config.lookup name = some a)
    (hpol : lit.not_found_instructions = .TRANSLATE)
    (ha : a < st.heap.length)
    (habs : dictLookup (heapDict st.heap a) key = none)
    (hprov : provider name.toLower key = .ok v) :
    lit.getLanguage name st =
      .ok ({ id := st.nextId, name := name, phrases := .ref a,
             not_found_instructions := .TRANSLATE },
           { st with nextId := st.nextId + 1 }) ∧
    lit.getLanguage name { st with nextId := st.nextId + 1 } =
      .ok ({ id := st.nextId + 1, name := name, phrases := .ref a,
             not_found_instructions := .TRANSLATE },
           { st with nextId := st.nextId + 1 + 1 }) ∧
    st.nextId ≠ st.nextId + 1 ∧
    (LitLanguage.resolve
        { id := st.nextId + 1, name := name, phrases := .ref a,
          not_found_instructions := .TRANSLATE }
        key
        (LitLanguage.resolve
          { id := st.nextId, name := name, phrases := .ref a,
            not_found_instructions := .TRANSLATE }
          key st.heap provider).heap
        provider) =
      { result := .ok (some v),
        heap := heapSet st.heap a (dictInsert (heapDict st.heap a) key v),
        providerCalls := 0, translitCalls := 0 } := by
  have hg1 := getLanguage_present lit name st a hcfg
  rw [hpol] at hg1
  have hg2 := getLanguage_present lit name { st with nextId := st.nextId + 1 } a hcfg
  rw [hpol] at hg2
  have hres1 := resolve_miss_translate
    { id := st.nextId, name := name, phrases := .ref a,
      not_found_instructions := .TRANSLATE }
    key st.heap provider a v rfl rfl habs hprov
  refine ⟨hg1, hg2, Nat.ne_of_lt (Nat.lt_succ_self _), ?_⟩
  rw [hres1]
  apply resolve_hit _ key _ provider a v rfl
  rw [heapDict_heapSet_self _ ha]
  exact dictLookup_dictInsert_self v habs

/-- Witness for the amended C1: config `{"DE": {}}`, key `"Hi"`. -/
theorem registry_fresh_wrapper_shared_dict_witness :
    Lit.getLanguage
        { config := [("DE", 0)], not_found_instructions := .TRANSLATE }
        "DE" { heap := [[]], nextId := 0 } =
      .ok ({ id := 0, name := "DE", phrases := .ref 0,
             not_found_instructions := .TRANSLATE },
           { heap := [[]], nextId := 1 }) ∧
    Lit.getLanguage
        { config := [("DE", 0)], not_found_instructions := .TRANSLATE }
        "DE" { heap := [[]], nextId := 1 } =
      .ok ({ id := 1, name := "DE", phrases := .ref 0,
             not_found_instructions := .TRANSLATE },
           { heap := [[]], nextId := 2 }) ∧
    (0 : Nat) ≠ 0 + 1 ∧
    (LitLanguage.resolve
        { id := 1, name := "DE", phrases := .ref 0,
          not_found_instructions := .TRANSLATE }
        "Hi"
        (LitLanguage.resolve
          { id := 0, name := "DE", phrases := .ref 0,
            not_found_instructions := .TRANSLATE }
          "Hi" [[]] (fun _ _ => .ok "Hallo")).heap
        (fun _ _ => .ok "Hallo")) =
      { result := .ok (some "Hallo"),
        heap := heapSet [[]] 0 (dictInsert (heapDict [[]] 0) "Hi" "Hallo"),
        providerCalls := 0, translitCalls := 0 } :=
  registry_fresh_wrapper_shared_dict
    { config := [("DE", 0)], not_found_instructions := .TRANSLATE }
    "DE" "Hi" "Hallo" { heap := [[]], nextId := 0 } 0
    (fun _ _ => .ok "Hallo") (by decide) rfl (by decide) (by decide) rfl

/-- C10: every wrapper `Lit.__getitem__` returns for a config-present name
holds a reference to the *same* underlying phrases dict object recorded in
the config (never a copy); a translation memoized through one `Lit.get`
access is therefore returned by a later `Lit.get` access — made through a
different, freshly allocated wrapper — with zero further provider calls. -/
theorem shared_phrases_dict_across_accesses (lit : Lit)
    (name key v : String) (st : State) (a : Nat) (provider : Provider)
    (hcfg : lit.config.lookup name = some a)
    (hpol : lit.not_found_instructions = .TRANSLATE)
    (ha : a < st.heap.length)
    (habs : dictLookup (heapDict st.heap a) key = none)
    (hprov : provider name.toLower key = .ok v) :
    (∀ st₀ l st₀', lit.getLanguage name st₀ = .ok (l, st₀') →
        l.phrases = PhrasesVal.ref a) ∧
    (lit.get key name st provider).providerCalls = 1 ∧
    (lit.get key name (lit.get key name st provider).state provider).result
      = .ok (some v) ∧
    (lit.get key name (lit.get key name st provider).state
        provider).providerCalls = 0 := by
  have hg1 := getLanguage_present lit name st a hcfg
  rw [hpol] at hg1
  have hres1 := resolve_miss_translate
    { id := st.nextId, name := name, phrases := .ref a,
      not_found_instructions := .TRANSLATE }
    key st.heap provider a v rfl rfl habs hprov
  have hget1 : lit.get key name st provider =
      { result := .ok (some v),
        state := { heap := heapSet st.heap a
                     (dictInsert (heapDict st.heap a) key v),
                   nextId := st.nextId + 1 },
        providerCalls := 1, translitCalls := 0 } := by
    simp [Lit.get, hg1, hres1]
  have hd : dictLookup
      (heapDict (heapSet st.heap a
        (dictInsert (heapDict st.heap a) key v)) a) key = some v := by
    rw [heapDict_heapSet_self _ ha]
    exact dictLookup_dictInsert_self v habs
  have hg2 := getLanguage_present lit name
    { heap := heapSet st.heap a (dictInsert (heapDict st.heap a) key v),
      nextId := st.nextId + 1 } a hcfg
  rw [hpol] at hg2
  have hres2 := resolve_hit
    { id := st.nextId + 1, name := name, phrases := .ref a,
      not_found_instructions := .TRANSLATE }
    key (heapSet st.heap a (dictInsert (heapDict st.heap a) key v))
    provider a v rfl hd
  have hget2 : lit.get key name
      { heap := heapSet st.heap a (dictInsert (heapDict st.heap a) key v),
        nextId := st.nextId + 1 } provider =
      { result := .ok (some v),
        state := { heap := heapSet st.heap a
                     (dictInsert (heapDict st.heap a) key v),
                   nextId := st.nextId + 1 + 1 },
        providerCalls := 0, translitCalls := 0 } := by
    simp [Lit.get, hg2, hres2]
  refine ⟨?_, ?_, ?_, ?_⟩
  · intro st₀ l st₀' hgl
    rw [getLanguage_present lit name st₀ a hcfg] at hgl
    injection hgl with h1
    injection h1 with h2 h3
    rw [← h2]
  · rw [hget1]
  · rw [hget1, hget2]
  · rw [hget1, hget2]

/-- Witness for C10: config `{"DE": {}}`, memoize `"Hi"` ↦ `"Hallo"`
through one access, read it back through a second. -/
theorem shared_phrases_dict_across_accesses_witness :
    (Lit.get { config := [("DE", 0)], not_found_instructions := .TRANSLATE }
        "Hi" "DE" { heap := [[]], nextId := 0 }
        (fun _ _ => .ok "Hallo")).providerCalls = 1 ∧
    (Lit.get { config := [("DE", 0)], not_found_instructions := .TRANSLATE }
        "Hi" "DE"
        (Lit.get { config := [("DE", 0)],
                   not_found_instructions := .TRANSLATE }
          "Hi" "DE" { heap := [[]], nextId := 0 }
          (fun _ _ => .ok "Hallo")).state
        (fun _ _ => .ok "Hallo")).result = .ok (some "Hallo") ∧
    (Lit.get { config := [("DE", 0)], not_found_instructions := .TRANSLATE }
        "Hi" "DE"
        (Lit.get { config := [("DE", 0)],
                   not_found_instructions := .TRANSLATE }
          "Hi" "DE" { heap := [[]], nextId := 0 }
          (fun _ _ => .ok "Hallo")).state
        (fun _ _ => .ok "Hallo")).providerCalls = 0 :=
  (shared_phrases_dict_across_accesses
    { config := [("DE", 0)], not_found_instructions := .TRANSLATE }
    "DE" "Hi" "Hallo" { heap := [[]], nextId := 0 } 0
    (fun _ _ => .ok "Hallo") (by decide) rfl (by decide) (by decide) rfl).2

/-- `compileAll` is the (copied) list of tables in construction order. -/
lemma compileAll_eq_tables (r : SpecRegistry) : r.compileAll = r.tables := by
  simp [SpecRegistry.compileAll]

/-- C9 (spec-modelled registry): `compileAll` holds one `{name, phrases}`
record per table ever constructed through `get`, in first-construction
order (a `get` of a new name appends exactly one record); and the
snapshots taken before and after resolving a previously-unseen key `K`
in table `L` differ only in `K`'s presence in `L`'s record — every other
record, and the order, is identical.  Snapshots are plain values of the
model, so the earlier snapshot is unaffected by the later resolve. -/
theorem compileAll_snapshot_order_and_diff (r : SpecRegistry)
    (pre post : List (String × Dict)) (L K v : String) (d : Dict)
    (provider : Provider)
    (htab : r.tables = pre ++ (L, d) :: post)
    (hpre : pre.lookup L = none)
    (habs : dictLookup d K = none)
    (hprov : provider L.toLower K = .ok v) :
    (∀ N, r.tables.lookup N = none →
        (r.get N).2.compileAll
          = r.compileAll ++ [(N, (r.seed.lookup N).getD [])]) ∧
    r.compileAll = pre ++ (L, d) :: post ∧
    (SpecRegistry.lookup r K L provider).1 = .ok v ∧
    (SpecRegistry.lookup r K L provider).2.compileAll
      = pre ++ (L, dictInsert d K v) :: post := by
  have hlook : r.tables.lookup L = some d := by
    rw [htab, lookup_append_of_none _ _ _ hpre]
    simp [List.lookup]
  have hget : r.get L = (d, r) := by
    simp [SpecRegistry.get, hlook]
  have hset := setTable_of_first pre L d (dictInsert d K v) post hpre
  have hlk : SpecRegistry.lookup r K L provider =
      (.ok v, { r with tables := pre ++ (L, dictInsert d K v) :: post }) := by
    simp [SpecRegistry.lookup, hget, habs, hprov, htab, hset]
  refine ⟨?_, ?_, ?_, ?_⟩
  · intro N hN
    simp [SpecRegistry.get, hN, compileAll_eq_tables]
  · rw [compileAll_eq_tables, htab]
  · rw [hlk]
  · rw [hlk, compileAll_eq_tables]

/-- Witness for C9: two constructed tables (`"DE"`, then `"UK"`);
resolving the unseen key `"Hi everyone"` in `"UK"` changes only the
`"UK"` record, by exactly that key. -/
theorem compileAll_snapshot_order_and_diff_witness :
    SpecRegistry.compileAll
        { seed := [], tables := [("DE", [("Hi", "Hallo")]), ("UK", [])],
          defaultPolicy := .TRANSLATE }
      = [("DE", [("Hi", "Hallo")])] ++ ("UK", []) :: [] ∧
    (SpecRegistry.lookup
        { seed := [], tables := [("DE", [("Hi", "Hallo")]), ("UK", [])],
          defaultPolicy := .TRANSLATE }
        "Hi everyone" "UK" (fun _ _ => .ok "Привіт")).1 = .ok "Привіт" ∧
    (SpecRegistry.lookup
        { seed := [], tables := [("DE", [("Hi", "Hallo")]), ("UK", [])],
          defaultPolicy := .TRANSLATE }
        "Hi everyone" "UK" (fun _ _ => .ok "Привіт")).2.compileAll
      = [("DE", [("Hi", "Hallo")])]
          ++ ("UK", dictInsert [] "Hi everyone" "Привіт") :: [] :=
  (compileAll_snapshot_order_and_diff
    { seed := [], tables := [("DE", [("Hi", "Hallo")]), ("UK", [])],
      defaultPolicy := .TRANSLATE }
    [("DE", [("Hi", "Hallo")])] [] "UK" "Hi everyone" "Привіт" []
    (fun _ _ => .ok "Привіт") rfl (by decide) (by decide) rfl).2
